import Mathlib

/-!
Verification of the two demo scripts in this repository:

* `python_demo_823d3b.py` — a recursive fractal-tree drawer over a
  turtle-graphics cursor (position + heading), embedded here as a state
  record `TurtleState` with the turtle operations the script uses
  (`forward`, `left`, `right`, `penup`, `goto`, `setheading`, `pendown`)
  and the recursive procedure `draw_fractal_tree`.

* `python_tutorial_262ddc.py` — a grid-pattern generator: a scalar field
  `get_pattern_value`, a color mapper `map_value_to_color`, and a frame
  driver producing numbered output files.  Python floats are embedded as
  real numbers, Python `int()` truncation as `pyInt`, and the module's
  name environment (which lacks `math`) as an explicit lookup used by the
  `Except`-valued execution model of `get_pattern_value`.
-/

namespace FractalTree

/-- Configuration constant `BRANCH_ANGLE = 25` (degrees). -/
def BRANCH_ANGLE : ℝ := 25

/-- Configuration constant `BRANCH_SCALE = 0.7`. -/
def BRANCH_SCALE : ℝ := 0.7

/-- The drawing cursor: position `(x, y)`, heading in degrees, pen state,
plus an instrumentation counter recording how many times `t.forward` has
been called (used to state the branch-count property). -/
structure TurtleState where
  x : ℝ
  y : ℝ
  heading : ℝ
  penDown : Bool
  fwdCalls : ℕ

/-- Operation `t.forward(length)`: move `length` units along the current heading
(degrees converted to radians for the trigonometry), counting the call. -/
noncomputable def TurtleState.forward (s : TurtleState) (length : ℝ) : TurtleState :=
  { s with
    x := s.x + length * Real.cos (s.heading * Real.pi / 180)
    y := s.y + length * Real.sin (s.heading * Real.pi / 180)
    fwdCalls := s.fwdCalls + 1 }

/-- Operation `t.left(angle)`: turn counterclockwise by `angle` degrees.  (The real
turtle canonicalizes the heading mod 360; since `cos`/`sin` are periodic
and the script only ever restores headings it previously read, the
unreduced representative is observationally equivalent.) -/
def TurtleState.left (s : TurtleState) (angle : ℝ) : TurtleState :=
  { s with heading := s.heading + angle }

/-- Operation `t.right(angle)`: turn clockwise by `angle` degrees. -/
def TurtleState.right (s : TurtleState) (angle : ℝ) : TurtleState :=
  { s with heading := s.heading - angle }

/-- Operation `t.penup()`. -/
def TurtleState.penup (s : TurtleState) : TurtleState :=
  { s with penDown := false }

/-- Operation `t.goto(pos)`. -/
def TurtleState.goto (s : TurtleState) (pos : ℝ × ℝ) : TurtleState :=
  { s with x := pos.1, y := pos.2 }

/-- Operation `t.setheading(h)`. -/
def TurtleState.setheading (s : TurtleState) (h : ℝ) : TurtleState :=
  { s with heading := h }

/-- Operation `t.pendown()`. -/
def TurtleState.pendown (s : TurtleState) : TurtleState :=
  { s with penDown := true }

/-- Function `draw_fractal_tree(t, length, depth)` from `python_demo_823d3b.py`,
embedded as a state transformer.  The base case `depth == 0` returns the
state unchanged; otherwise the cursor moves forward, the post-move
position and heading are saved (`current_pos`, `current_heading`), the
two sub-branches are drawn with a restore between them, and a final
restore returns the cursor to the saved (post-`forward`) pose. -/
noncomputable def draw_fractal_tree (s : TurtleState) (length : ℝ) : ℕ → TurtleState
  | 0 => s
  | depth + 1 =>
    let s1 := s.forward length
    let current_pos := (s1.x, s1.y)
    let current_heading := s1.heading
    let s2 := s1.left BRANCH_ANGLE
    let s3 := draw_fractal_tree s2 (length * BRANCH_SCALE) depth
    let s4 := (((s3.penup).goto current_pos).setheading current_heading).pendown
    let s5 := s4.right BRANCH_ANGLE
    let s6 := draw_fractal_tree s5 (length * BRANCH_SCALE) depth
    (((s6.penup).goto current_pos).setheading current_heading).pendown

/-- Fuel-bounded execution model of `draw_fractal_tree`: each nested call
consumes one unit of fuel and the recursion follows the script literally
(`if depth == 0: return`, recursive calls at `depth - 1`).  `none` means
the fuel ran out before the call returned. -/
noncomputable def draw_fractal_tree_fuel :
    ℕ → TurtleState → ℝ → ℕ → Option TurtleState
  | 0, _, _, _ => none
  | fuel + 1, s, length, depth =>
    if depth = 0 then some s
    else
      let s1 := s.forward length
      let current_pos := (s1.x, s1.y)
      let current_heading := s1.heading
      let s2 := s1.left BRANCH_ANGLE
      match draw_fractal_tree_fuel fuel s2 (length * BRANCH_SCALE) (depth - 1) with
      | none => none
      | some s3 =>
        let s4 := (((s3.penup).goto current_pos).setheading current_heading).pendown
        let s5 := s4.right BRANCH_ANGLE
        match draw_fractal_tree_fuel fuel s5 (length * BRANCH_SCALE) (depth - 1) with
        | none => none
        | some s6 =>
          some ((((s6.penup).goto current_pos).setheading current_heading).pendown)

/-- The initial cursor pose of `create_fractal_art` after setup
(`goto(0, -250)`, `left(90)` from the default heading 0, pen down). -/
def initialCursor : TurtleState :=
  { x := 0, y := -250, heading := 90, penDown := true, fwdCalls := 0 }

@[simp] theorem forward_heading (s : TurtleState) (l : ℝ) :
    (s.forward l).heading = s.heading := rfl

@[simp] theorem forward_fwdCalls (s : TurtleState) (l : ℝ) :
    (s.forward l).fwdCalls = s.fwdCalls + 1 := rfl

@[simp] theorem left_fwdCalls (s : TurtleState) (a : ℝ) :
    (s.left a).fwdCalls = s.fwdCalls := rfl

@[simp] theorem right_fwdCalls (s : TurtleState) (a : ℝ) :
    (s.right a).fwdCalls = s.fwdCalls := rfl

@[simp] theorem penup_fwdCalls (s : TurtleState) :
    (s.penup).fwdCalls = s.fwdCalls := rfl

@[simp] theorem pendown_fwdCalls (s : TurtleState) :
    (s.pendown).fwdCalls = s.fwdCalls := rfl

@[simp] theorem goto_fwdCalls (s : TurtleState) (p : ℝ × ℝ) :
    (s.goto p).fwdCalls = s.fwdCalls := rfl

@[simp] theorem setheading_fwdCalls (s : TurtleState) (h : ℝ) :
    (s.setheading h).fwdCalls = s.fwdCalls := rfl

/-- C1: the claim that `draw_fractal_tree(t, L, D)` with `D ≥ 1` returns the
cursor to its pre-call position is false at the script's own starting
cursor with `L = 100`, `D = 1`: the final restore targets the pose saved
after the initial `t.forward(length)`, so the cursor ends one branch
length away from where it started. -/
theorem c1_cursor_restore_counterexample :
    ¬((draw_fractal_tree initialCursor 100 1).x = initialCursor.x ∧
      (draw_fractal_tree initialCursor 100 1).y = initialCursor.y ∧
      (draw_fractal_tree initialCursor 100 1).heading = initialCursor.heading) := by
  intro h
  have hy : (draw_fractal_tree initialCursor 100 1).y = initialCursor.y := h.2.1
  have hy2 : (draw_fractal_tree initialCursor 100 1).y
      = initialCursor.y + 100 * Real.sin (initialCursor.heading * Real.pi / 180) := rfl
  have hyv : initialCursor.y = -250 := rfl
  have hhv : initialCursor.heading = 90 := rfl
  rw [hy2, hyv, hhv] at hy
  have hpi : (90 : ℝ) * Real.pi / 180 = Real.pi / 2 := by ring
  rw [hpi, Real.sin_pi_div_two] at hy
  linarith

/-- C1 (amended): after `draw_fractal_tree(t, L, D)` with `D ≥ 1` the
cursor's heading equals its entry heading, but its position equals the
position reached by the initial `t.forward(L)` from the entry pose (one
branch length from the entry point), not the entry position itself. -/
theorem c1_cursor_restore_amended (s : TurtleState) (L : ℝ) (D : ℕ) (h : 1 ≤ D) :
    (draw_fractal_tree s L D).x = (s.forward L).x ∧
    (draw_fractal_tree s L D).y = (s.forward L).y ∧
    (draw_fractal_tree s L D).heading = s.heading := by
  obtain ⟨d, rfl⟩ : ∃ d, D = d + 1 := ⟨D - 1, by omega⟩
  exact ⟨rfl, rfl, rfl⟩

/-- Witness for the amended C1 at the script's starting cursor,
`L = 100`, `D = 1`. -/
theorem c1_cursor_restore_amended_witness :
    1 ≤ 1 ∧
      ((draw_fractal_tree initialCursor 100 1).x = (initialCursor.forward 100).x ∧
       (draw_fractal_tree initialCursor 100 1).y = (initialCursor.forward 100).y ∧
       (draw_fractal_tree initialCursor 100 1).heading = initialCursor.heading) :=
  ⟨le_refl 1, c1_cursor_restore_amended initialCursor 100 1 (le_refl 1)⟩

/-- C4: for every state, length and depth `D`, `draw_fractal_tree` issues
exactly `2 ^ D - 1` calls to `t.forward` (the instrumentation counter
grows by `2 ^ D - 1`); in particular 0 for `D = 0`, 1 for `D = 1`, 3 for
`D = 2`. -/
theorem c4_forward_call_count (s : TurtleState) (L : ℝ) (D : ℕ) :
    (draw_fractal_tree s L D).fwdCalls = s.fwdCalls + (2 ^ D - 1) := by
  induction D generalizing s L with
  | zero => simp [draw_fractal_tree]
  | succ d ih =>
    have h1 : 1 ≤ 2 ^ d := Nat.one_le_two_pow
    simp only [draw_fractal_tree]
    simp only [ih, penup_fwdCalls, pendown_fwdCalls, goto_fwdCalls,
      setheading_fwdCalls, left_fwdCalls, right_fwdCalls, forward_fwdCalls,
      pow_succ]
    omega

/-- C8: `draw_fractal_tree` terminates for every depth `D ≥ 0`: the
fuel-bounded execution model, which consumes one unit of fuel per nested
call and recurses at `depth - 1`, returns within any fuel bound exceeding
`D`, and its result is the total function `draw_fractal_tree`. -/
theorem c8_structural_termination (s : TurtleState) (L : ℝ) (D fuel : ℕ)
    (h : D < fuel) :
    draw_fractal_tree_fuel fuel s L D = some (draw_fractal_tree s L D) := by
  induction D generalizing s L fuel with
  | zero =>
    obtain ⟨f, rfl⟩ : ∃ f, fuel = f + 1 := ⟨fuel - 1, by omega⟩
    simp [draw_fractal_tree_fuel, draw_fractal_tree]
  | succ d ih =>
    obtain ⟨f, rfl⟩ : ∃ f, fuel = f + 1 := ⟨fuel - 1, by omega⟩
    have hd : d < f := by omega
    simp only [draw_fractal_tree_fuel, Nat.succ_ne_zero, if_false,
      Nat.add_sub_cancel]
    simp only [ih _ _ f hd]
    simp [draw_fractal_tree]

/-- Witness for C8 at the script's starting cursor, `L = 100`, `D = 2`,
fuel 3. -/
theorem c8_structural_termination_witness :
    2 < 3 ∧
      draw_fractal_tree_fuel 3 initialCursor 100 2 =
        some (draw_fractal_tree initialCursor 100 2) :=
  ⟨by decide, c8_structural_termination initialCursor 100 2 3 (by decide)⟩

/-- C9: after `draw_fractal_tree(t, L, D)` with `D ≥ 1`, the heading
equals the entry heading and the position is the entry position
translated by `L` along the entry heading — the final restore targets
the state saved after the initial forward move (the branch tip), not the
entry point. -/
theorem c9_net_displacement (s : TurtleState) (L : ℝ) (D : ℕ) (h : 1 ≤ D) :
    (draw_fractal_tree s L D).x = s.x + L * Real.cos (s.heading * Real.pi / 180) ∧
    (draw_fractal_tree s L D).y = s.y + L * Real.sin (s.heading * Real.pi / 180) ∧
    (draw_fractal_tree s L D).heading = s.heading := by
  obtain ⟨d, rfl⟩ : ∃ d, D = d + 1 := ⟨D - 1, by omega⟩
  exact ⟨rfl, rfl, rfl⟩

/-- Witness for C9 at the script's starting cursor, `L = 50`, `D = 2`. -/
theorem c9_net_displacement_witness :
    1 ≤ 2 ∧
      ((draw_fractal_tree initialCursor 50 2).x =
          initialCursor.x + 50 * Real.cos (initialCursor.heading * Real.pi / 180) ∧
       (draw_fractal_tree initialCursor 50 2).y =
          initialCursor.y + 50 * Real.sin (initialCursor.heading * Real.pi / 180) ∧
       (draw_fractal_tree initialCursor 50 2).heading = initialCursor.heading) :=
  ⟨by omega, c9_net_displacement initialCursor 50 2 (by omega)⟩

end FractalTree

namespace PatternGrid

/-- Configuration constant `GRID_SIZE = 16`. -/
def GRID_SIZE : ℕ := 16

/-- Configuration constant `CELL_SIZE = 30`. -/
def CELL_SIZE : ℕ := 30

/-- Constant `PATTERN_COLOR_RANGE = ((0, 0, 0), (100, 100, 255))`. -/
def PATTERN_COLOR_RANGE : (ℤ × ℤ × ℤ) × (ℤ × ℤ × ℤ) :=
  ((0, 0, 0), (100, 100, 255))

/-- The names bound at module level in `python_tutorial_262ddc.py` when its
functions run: the imports (`from PIL import Image, ImageDraw`,
`import random`), the configuration constants, and the three functions.
`math` is not among them — the module never imports it. -/
def module_globals : List String :=
  ["Image", "ImageDraw", "random",
   "GRID_SIZE", "CELL_SIZE", "IMAGE_WIDTH", "IMAGE_HEIGHT",
   "BACKGROUND_COLOR", "PATTERN_COLOR_RANGE",
   "get_pattern_value", "map_value_to_color", "draw_grid_pattern"]

/-- Whether a name resolves at module level. -/
def resolves (n : String) : Bool := module_globals.contains n

/-- The value `get_pattern_value(row, col, time_factor)` computes when the
names in its body resolve: the literal formula of the function body, with
Python floats embedded as reals and `math.sin` / `math.cos` as the real
sine and cosine. -/
noncomputable def get_pattern_value (row col : ℤ) (time_factor : ℝ) : ℝ :=
  let base_value : ℝ := ((row : ℝ) + (col : ℝ)) * 0.1
  let pattern_noise : ℝ :=
    ((|row - col| : ℤ) : ℝ) * 0.2 + (row : ℝ) * 0.3 + (col : ℝ) * 0.4 +
      time_factor * 0.5
  let sine_wave_1 := Real.sin (base_value + pattern_noise)
  let sine_wave_2 := Real.cos (pattern_noise * 1.5)
  let combined_value := sine_wave_1 * 0.5 + sine_wave_2 * 0.5
  (combined_value + 1) / 2

/-- Execution model of a call to `get_pattern_value`: the body evaluates
`math.sin(...)`, so the call returns normally only if the name `math`
resolves at module level; otherwise Python raises a `NameError`. -/
noncomputable def get_pattern_value_run (row col : ℤ) (time_factor : ℝ) :
    Except String ℝ :=
  if resolves ("math") then Except.ok (get_pattern_value row col time_factor)
  else Except.error ("NameError: name math is not defined")

/-- Python `int()` applied to a float: truncation toward zero. -/
noncomputable def pyInt (x : ℝ) : ℤ := if 0 ≤ x then ⌊x⌋ else ⌈x⌉

/-- The raw interpolated channels of `map_value_to_color` (lines 71-73):
`int(start + (end - start) * value)` per channel, before clamping. -/
noncomputable def interp_channels (value : ℝ) : ℤ × ℤ × ℤ :=
  let start_color := PATTERN_COLOR_RANGE.1
  let end_color := PATTERN_COLOR_RANGE.2
  (pyInt ((start_color.1 : ℝ) + ((end_color.1 : ℝ) - (start_color.1 : ℝ)) * value),
   pyInt ((start_color.2.1 : ℝ) + ((end_color.2.1 : ℝ) - (start_color.2.1 : ℝ)) * value),
   pyInt ((start_color.2.2 : ℝ) + ((end_color.2.2 : ℝ) - (start_color.2.2 : ℝ)) * value))

/-- The clamping step (lines 76-78): `max(0, min(255, c))`. -/
def clamp255 (c : ℤ) : ℤ := max 0 (min 255 c)

/-- Function `map_value_to_color(value)`: linear interpolation between the two
`PATTERN_COLOR_RANGE` endpoints, truncated to integers per channel and
clamped to `[0, 255]`. -/
noncomputable def map_value_to_color (value : ℝ) : ℤ × ℤ × ℤ :=
  let c := interp_channels value
  (clamp255 c.1, clamp255 c.2.1, clamp255 c.2.2)

/-- Constant `num_frames = 60` in the `__main__` block. -/
def num_frames : ℕ := 60

/-- Constant `output_filename_base = "pattern_grid_"`. -/
def output_filename_base : String := "pattern_grid_"

/-- Python `str.zfill(width)` for the non-negative numerals this script
produces: left-pad with `'0'` up to `width` characters. -/
def zfill (s : String) (width : ℕ) : String :=
  if width ≤ s.length then s
  else String.mk (List.replicate (width - s.length) '0') ++ s

/-- The output filename for a frame:
`f"{output_filename_base}{str(frame_num + 1).zfill(3)}.png"`. -/
def output_filename (frame_num : ℕ) : String :=
  output_filename_base ++ zfill (toString (frame_num + 1)) 3 ++ ".png"

/-- The time factor of a frame: `frame_num / num_frames`. -/
noncomputable def current_time_factor (frame_num : ℕ) : ℝ :=
  (frame_num : ℝ) / (num_frames : ℝ)

/-- Execution model of `draw_grid_pattern(image, time_factor)`: iterate the
`GRID_SIZE × GRID_SIZE` grid in row-major order, evaluating
`get_pattern_value` and then the pure color mapping per cell (the
rectangle painted into the in-memory raster is not observable here); an
uncaught exception from any cell aborts the whole call. -/
noncomputable def draw_grid_pattern_run (time_factor : ℝ) : Except String Unit :=
  (List.range GRID_SIZE).forM fun row =>
    (List.range GRID_SIZE).forM fun col =>
      match get_pattern_value_run (row : ℤ) (col : ℤ) time_factor with
      | Except.error e => Except.error e
      | Except.ok v =>
        let _cell_color := map_value_to_color v
        Except.ok ()

/-- Execution model of the `__main__` driver loop: for each
`frame_num < num_frames` it computes the time factor, draws the grid
(which evaluates `get_pattern_value` per cell), and only then saves to
`output_filename frame_num`.  The result is the list of filenames
actually saved, in order — or the uncaught exception that aborted the
run, in which case the later saves of that run never happen. -/
noncomputable def main_run : Except String (List String) :=
  (List.range num_frames).foldlM
    (fun saved frame_num =>
      match draw_grid_pattern_run (current_time_factor frame_num) with
      | Except.error e => Except.error e
      | Except.ok _ => Except.ok (saved ++ [output_filename frame_num]))
    []

theorem pattern_combination_bounds (a b : ℝ) (ha1 : -1 ≤ a) (ha2 : a ≤ 1)
    (hb1 : -1 ≤ b) (hb2 : b ≤ 1) :
    0 ≤ (a * 0.5 + b * 0.5 + 1) / 2 ∧ (a * 0.5 + b * 0.5 + 1) / 2 ≤ 1 := by
  constructor <;> nlinarith

theorem pyInt_mono_nonneg {x y : ℝ} (hx : 0 ≤ x) (hxy : x ≤ y) :
    pyInt x ≤ pyInt y := by
  unfold pyInt
  rw [if_pos hx, if_pos (le_trans hx hxy)]
  exact Int.floor_le_floor hxy

theorem pyInt_bounds {x : ℝ} (h0 : 0 ≤ x) (h255 : x ≤ 255) :
    0 ≤ pyInt x ∧ pyInt x ≤ 255 := by
  unfold pyInt
  rw [if_pos h0]
  refine ⟨Int.floor_nonneg.mpr h0, ?_⟩
  have hf : (⌊x⌋ : ℝ) ≤ (255 : ℝ) := le_trans (Int.floor_le x) h255
  exact_mod_cast hf

theorem clamp255_mono {a b : ℤ} (h : a ≤ b) : clamp255 a ≤ clamp255 b :=
  max_le_max (le_refl 0) (min_le_min (le_refl 255) h)

theorem clamp255_eq_self {c : ℤ} (h0 : 0 ≤ c) (h255 : c ≤ 255) :
    clamp255 c = c := by
  unfold clamp255
  rw [min_eq_right h255, max_eq_right h0]

/-- C2: the claim that every call to `get_pattern_value` returns normally
is false on the code as written: the function body evaluates
`math.sin(...)`, but the module never imports `math`, so every call
raises a `NameError` instead of returning a value. -/
theorem c2_name_error_on_every_call (row col : ℤ) (time_factor : ℝ) :
    get_pattern_value_run row col time_factor =
      Except.error ("NameError: name math is not defined") := by
  have h : resolves ("math") = false := by decide
  simp [get_pattern_value_run, h]

/-- C3: the pattern formula computed by `get_pattern_value` is a
deterministic pure function of `(row, col, time_factor)` whose value
always lies in the closed interval `[0, 1]`. -/
theorem c3_pattern_value_unit_interval (row col : ℤ) (time_factor : ℝ) :
    (0 ≤ get_pattern_value row col time_factor ∧
      get_pattern_value row col time_factor ≤ 1) ∧
    (∀ row2 col2 : ℤ, ∀ t2 : ℝ, row = row2 → col = col2 → time_factor = t2 →
      get_pattern_value row col time_factor = get_pattern_value row2 col2 t2) := by
  constructor
  · simp only [get_pattern_value]
    exact pattern_combination_bounds _ _
      (Real.neg_one_le_sin _) (Real.sin_le_one _)
      (Real.neg_one_le_cos _) (Real.cos_le_one _)
  · intro row2 col2 t2 h1 h2 h3
    rw [h1, h2, h3]

/-- Witness for C3 at `row = 0`, `col = 0`, `time_factor = 0`. -/
theorem c3_pattern_value_unit_interval_witness :
    (0 ≤ get_pattern_value 0 0 0 ∧ get_pattern_value 0 0 0 ≤ 1) ∧
      get_pattern_value 0 0 0 = get_pattern_value 0 0 0 :=
  ⟨(c3_pattern_value_unit_interval 0 0 0).1,
   (c3_pattern_value_unit_interval 0 0 0).2 0 0 0 rfl rfl rfl⟩

/-- C5: `map_value_to_color` sends 0 to the start color `(0, 0, 0)` and 1
to the end color `(100, 100, 255)` exactly, and on `[0, 1]` each channel
is monotone in the input value. -/
theorem c5_endpoints_and_monotone :
    map_value_to_color 0 = (0, 0, 0) ∧
    map_value_to_color 1 = (100, 100, 255) ∧
    ∀ v1 v2 : ℝ, 0 ≤ v1 → v1 ≤ v2 → v2 ≤ 1 →
      ((map_value_to_color v1).1 ≤ (map_value_to_color v2).1 ∧
       (map_value_to_color v1).2.1 ≤ (map_value_to_color v2).2.1 ∧
       (map_value_to_color v1).2.2 ≤ (map_value_to_color v2).2.2) := by
  refine ⟨?_, ?_, ?_⟩
  · norm_num [map_value_to_color, interp_channels, PATTERN_COLOR_RANGE, pyInt,
      clamp255]
  · norm_num [map_value_to_color, interp_channels, PATTERN_COLOR_RANGE, pyInt,
      clamp255]
  · intro v1 v2 h0 h12 h2
    have key : ∀ k : ℝ, 0 ≤ k →
        clamp255 (pyInt (k * v1)) ≤ clamp255 (pyInt (k * v2)) := by
      intro k hk
      exact clamp255_mono (pyInt_mono_nonneg (by nlinarith) (by nlinarith))
    refine ⟨?_, ?_, ?_⟩ <;>
      · show clamp255 _ ≤ clamp255 _
        simp only [interp_channels, PATTERN_COLOR_RANGE]
        norm_num
        first
          | exact key 100 (by norm_num)
          | exact key 255 (by norm_num)

/-- Witness for C5's monotonicity at `v1 = 1/4`, `v2 = 3/4`, together
with the proved endpoint values. -/
theorem c5_endpoints_and_monotone_witness :
    map_value_to_color 0 = (0, 0, 0) ∧
    map_value_to_color 1 = (100, 100, 255) ∧
    ((map_value_to_color (1 / 4)).1 ≤ (map_value_to_color (3 / 4)).1 ∧
     (map_value_to_color (1 / 4)).2.1 ≤ (map_value_to_color (3 / 4)).2.1 ∧
     (map_value_to_color (1 / 4)).2.2 ≤ (map_value_to_color (3 / 4)).2.2) :=
  ⟨c5_endpoints_and_monotone.1, c5_endpoints_and_monotone.2.1,
   c5_endpoints_and_monotone.2.2 (1 / 4) (3 / 4)
     (by norm_num) (by norm_num) (by norm_num)⟩

/-- C6: for every input value, even outside `[0, 1]`, each channel of
`map_value_to_color` is an integer (the return type is `ℤ × ℤ × ℤ`)
lying in `[0, 255]`. -/
theorem c6_channels_in_display_range (v : ℝ) :
    (0 ≤ (map_value_to_color v).1 ∧ (map_value_to_color v).1 ≤ 255) ∧
    (0 ≤ (map_value_to_color v).2.1 ∧ (map_value_to_color v).2.1 ≤ 255) ∧
    (0 ≤ (map_value_to_color v).2.2 ∧ (map_value_to_color v).2.2 ≤ 255) := by
  have h : ∀ c : ℤ, 0 ≤ clamp255 c ∧ clamp255 c ≤ 255 := fun c =>
    ⟨le_max_left 0 _, max_le (by norm_num) (min_le_left 255 c)⟩
  exact ⟨h _, h _, h _⟩

/-- C7: the claim that running the driver with `num_frames = 60` produces
exactly 60 uniquely named output files is false on the code as written:
the very first frame's first grid cell raises `NameError` inside
`get_pattern_value` (the module never imports `math`), so the run aborts
before the first `image.save` and saves no file at all — it does not
reach the `frame_num + 1` naming step even once. -/
theorem c7_driver_aborts_before_first_save :
    main_run = Except.error ("NameError: name math is not defined") := by
  have hm : resolves ("math") = false := by decide
  have hcell : ∀ (row col : ℤ) (t : ℝ),
      get_pattern_value_run row col t =
        Except.error ("NameError: name math is not defined") := by
    intro row col t
    simp [get_pattern_value_run, hm]
  have hbind : ∀ (α β : Type) (e : String) (f : α → Except String β),
      (Except.error e >>= f) = Except.error e := fun _ _ _ _ => rfl
  have hframe : ∀ t : ℝ,
      draw_grid_pattern_run t =
        Except.error ("NameError: name math is not defined") := by
    intro t
    simp [draw_grid_pattern_run, GRID_SIZE, List.range_succ, hcell, hbind]
  simp [main_run, num_frames, List.range_succ, hframe, hbind]

/-- C10: for values in `[0, 1]` the clamping step of `map_value_to_color`
is a no-op — the raw interpolated channel integers already lie in
`[0, 255]`, so `map_value_to_color` returns them unchanged. -/
theorem c10_clamp_noop_on_unit_interval (v : ℝ) (h0 : 0 ≤ v) (h1 : v ≤ 1) :
    ((0 ≤ (interp_channels v).1 ∧ (interp_channels v).1 ≤ 255) ∧
     (0 ≤ (interp_channels v).2.1 ∧ (interp_channels v).2.1 ≤ 255) ∧
     (0 ≤ (interp_channels v).2.2 ∧ (interp_channels v).2.2 ≤ 255)) ∧
    map_value_to_color v = interp_channels v := by
  have e1 : (interp_channels v).1 = pyInt ((0 : ℝ) + ((100 : ℝ) - 0) * v) := by
    simp only [interp_channels, PATTERN_COLOR_RANGE]
    norm_num
  have e2 : (interp_channels v).2.1 = pyInt ((0 : ℝ) + ((100 : ℝ) - 0) * v) := by
    simp only [interp_channels, PATTERN_COLOR_RANGE]
    norm_num
  have e3 : (interp_channels v).2.2 = pyInt ((0 : ℝ) + ((255 : ℝ) - 0) * v) := by
    simp only [interp_channels, PATTERN_COLOR_RANGE]
    norm_num
  have b1 : 0 ≤ pyInt ((0 : ℝ) + ((100 : ℝ) - 0) * v) ∧
      pyInt ((0 : ℝ) + ((100 : ℝ) - 0) * v) ≤ 255 :=
    pyInt_bounds (by nlinarith) (by nlinarith)
  have b3 : 0 ≤ pyInt ((0 : ℝ) + ((255 : ℝ) - 0) * v) ∧
      pyInt ((0 : ℝ) + ((255 : ℝ) - 0) * v) ≤ 255 :=
    pyInt_bounds (by nlinarith) (by nlinarith)
  refine ⟨⟨?_, ?_, ?_⟩, ?_⟩
  · rw [e1]; exact b1
  · rw [e2]; exact b1
  · rw [e3]; exact b3
  · show (clamp255 (interp_channels v).1, clamp255 (interp_channels v).2.1,
        clamp255 (interp_channels v).2.2) = interp_channels v
    have g1 : clamp255 (interp_channels v).1 = (interp_channels v).1 := by
      rw [e1]; exact clamp255_eq_self b1.1 b1.2
    have g2 : clamp255 (interp_channels v).2.1 = (interp_channels v).2.1 := by
      rw [e2]; exact clamp255_eq_self b1.1 b1.2
    have g3 : clamp255 (interp_channels v).2.2 = (interp_channels v).2.2 := by
      rw [e3]; exact clamp255_eq_self b3.1 b3.2
    rw [g1, g2, g3]

/-- Witness for C10 at `v = 1/2`. -/
theorem c10_clamp_noop_on_unit_interval_witness :
    (0 : ℝ) ≤ 1 / 2 ∧ (1 : ℝ) / 2 ≤ 1 ∧
      map_value_to_color (1 / 2) = interp_channels (1 / 2) :=
  ⟨by norm_num, by norm_num,
   (c10_clamp_noop_on_unit_interval (1 / 2) (by norm_num) (by norm_num)).2⟩

end PatternGrid
